import Mathlib

/-!
Verification of the TRIPD script-generation and deduplication pipeline
(repository `ariannamethod/tripd_v1`).

The Python sources are shallowly embedded:

* numbers that the program manipulates as Python floats are modelled as
  exact rationals (`ℚ`); the transcendental library functions
  (`math.log2`, `2 ** x`, `math.cos`, ...) are oracle parameters, since
  they are external library calls, and theorems that need facts about
  them take those facts as hypotheses;
* `random.choices` / `random.sample` are modelled as oracle parameters:
  an arbitrary draw function, so theorems quantify over every possible
  random outcome;
* `hashlib.sha256(...).hexdigest()` (an external library call) is an
  oracle parameter `hash : String → String`; no claim below depends on
  collision behaviour, only on `hash` being a function;
* the log files `scripts.log` / `scripts.log.1` are modelled as explicit
  state (`Log1`, `Log2` below), one list entry per physical line.
-/

namespace Tripd

/-- Python `int(x)` on a float: truncation toward zero, modelled on `ℚ`. -/
def pyTrunc (q : ℚ) : ℤ :=
  if 0 ≤ q then ⌊q⌋ else -⌊-q⌋

/-- Python `a % n` for integers with positive modulus `n` (the result lies
in `[0, n)`, as Python guarantees for a positive right operand). -/
def pyMod (a : ℤ) (n : ℤ) : ℤ := a.emod n

/-! ## JSON line encoding

`tripd_memory.log_script` writes `json.dumps({"hash": h, "script": s})`
(the flat module variant writes `json.dumps({"script": s})`), one record
per line.  `json.dumps` is the standard-library encoder with
`ensure_ascii=True`: `"` and `\` are escaped, control characters use the
short escapes or `\u00XX`, and non-ASCII code points become `\uXXXX`
(surrogate pairs above `0xFFFF`). -/

/-- Hexadecimal digit for a value below 16. -/
def hexDigit (n : Nat) : Char :=
  if n < 10 then Char.ofNat ('0'.toNat + n)
  else Char.ofNat ('a'.toNat + (n - 10))

/-- Four-digit lowercase hex rendering of a code unit, as in `\uXXXX`. -/
def hex4 (n : Nat) : String :=
  String.mk [hexDigit (n / 4096 % 16), hexDigit (n / 256 % 16),
             hexDigit (n / 16 % 16), hexDigit (n % 16)]

/-- Escape one character the way `json.dumps` (with `ensure_ascii=True`)
does inside a string literal. -/
def jsonEscapeChar (c : Char) : String :=
  if c = '"' then "\\\""
  else if c = '\\' then "\\\\"
  else if c = '\n' then "\\n"
  else if c = '\t' then "\\t"
  else if c = '\r' then "\\r"
  else if c.toNat = 8 then "\\b"
  else if c.toNat = 12 then "\\f"
  else if c.toNat < 32 then "\\u" ++ hex4 c.toNat
  else if c.toNat < 127 then String.mk [c]
  else if c.toNat < 65536 then "\\u" ++ hex4 c.toNat
  else
    "\\u" ++ hex4 (55296 + (c.toNat - 65536) / 1024) ++
    "\\u" ++ hex4 (56320 + (c.toNat - 65536) % 1024)

/-- Escape a whole string as the body of a JSON string literal. -/
def jsonEscape (s : String) : String :=
  String.join (s.toList.map jsonEscapeChar)

/-- One line of the package log file:
`json.dumps({"hash": script_hash, "script": script})`. -/
def encodeLine2 (h s : String) : String :=
  "\x7b\"hash\": \"" ++ jsonEscape h ++ "\", \"script\": \"" ++
    jsonEscape s ++ "\"\x7d"

/-- One line of the flat-module log file: `json.dumps({"script": script})`. -/
def encodeLine1 (s : String) : String :=
  "\x7b\"script\": \"" ++ jsonEscape s ++ "\"\x7d"

/-! ## The flat log module `src/tripd_memory.py`

State: the log file `scripts.log` (a list of lines) and the in-memory
set `_SCRIPTS_INDEX` of raw script texts.  A Python `set` has no
specified iteration order, so it is represented here by the list of its
elements in insertion order together with a nondeterministic enumeration
relation for `list(_SCRIPTS_INDEX)` (see `loadScripts1Can`). -/

structure Log1 where
  file : List String
  index : List String
deriving DecidableEq, Repr

/-- Fresh state: empty `scripts.log`, empty in-memory set. -/
def Log1.init : Log1 := ⟨[], []⟩

/-- `tripd_memory.log_script`: membership test against the in-memory set,
then append one JSON line and insert into the set. -/
def logScript1 (s : String) (st : Log1) : Log1 :=
  if s ∈ st.index then st
  else { file := st.file ++ [encodeLine1 s], index := st.index ++ [s] }

/-- `tripd_memory.get_log_count`: size of the in-memory set. -/
def getLogCount1 (st : Log1) : ℕ := st.index.length

/-- `tripd_memory.load_scripts` returns `list(_SCRIPTS_INDEX)`, the
elements of a Python `set` in its (unspecified) iteration order: any
enumeration of the set is an admissible return value. -/
def loadScripts1Can (st : Log1) (out : List String) : Prop :=
  out.Perm st.index

/-! ## The package log module `src/tripd/tripd_memory.py`

State: the active file `scripts.log`, at most one backup `scripts.log.1`
(the source only ever creates `with_suffix(".1")`, overwriting it on the
next rotation), the in-memory hash set `_SCRIPTS_INDEX` and the ordered
text list `_SCRIPT_LIST`. -/

structure Log2 where
  active : List String
  backup : Option (List String)
  index : List String
  scripts : List String
deriving DecidableEq, Repr

/-- Fresh state: empty active file, no backup, cold caches. -/
def Log2.init : Log2 := ⟨[], none, [], []⟩

/-- Byte size of the active file: each line is written with a trailing
newline, so the size is the sum of the UTF-8 sizes plus one per line. -/
def fileSize (lines : List String) : ℕ :=
  (lines.map (fun l => l.utf8ByteSize + 1)).sum

/-- `tripd_memory._rotate_log`: if the active file exceeds
`_LOG_MAX_BYTES`, remove any previous backup, rename the active file to
the `.1` backup and start a fresh empty file.  Only the file tier is
touched. -/
def rotateLog (maxBytes : ℕ) (st : Log2) : Log2 :=
  if fileSize st.active ≤ maxBytes then st
  else { st with backup := some st.active, active := [] }

/-- `tripd_memory.log_script` (package variant): hash, in-memory
membership test, rotation check, append one JSON line, update both
caches. -/
def logScript2 (hash : String → String) (maxBytes : ℕ) (s : String)
    (st : Log2) : Log2 :=
  if hash s ∈ st.index then st
  else
    let st1 := rotateLog maxBytes st
    { active := st1.active ++ [encodeLine2 (hash s) s],
      backup := st1.backup,
      index := st1.index ++ [hash s],
      scripts := st1.scripts ++ [s] }

/-- `tripd_memory.get_log_count` (package variant). -/
def getLogCount2 (st : Log2) : ℕ := st.index.length

/-- `tripd_memory.load_scripts` (package variant): a copy of the ordered
in-memory list. -/
def loadScripts2 (st : Log2) : List String := st.scripts

/-- Run a sequence of `log_script` calls in arrival order. -/
def runLog2 (hash : String → String) (maxBytes : ℕ) (msgs : List String)
    (st : Log2) : Log2 :=
  msgs.foldl (fun acc s => logScript2 hash maxBytes s acc) st

/-! ## The weighted sampler (`ComplexAmplitudeSimulator.sample`)

The phase/weight computation feeds `random.choices(pool, weights, k=1)`,
which returns one element of the non-empty pool; which element depends
on `random.uniform` jitter and the weighted draw.  The whole random draw
is modelled by an oracle `pick : List String → String`; theorems assume
only that `pick` returns a member of a non-empty pool, so they hold for
every possible random outcome.  `pool.remove(pick)` removes the first
occurrence of the picked value (`List.erase`). -/

/-- The sampling loop: `k` times pick an element and remove it from the
remaining pool; the result lists the picks in draw order. -/
def samplePool (pick : List String → String) : ℕ → List String → List String
  | 0, _ => []
  | k + 1, pool =>
    let x := pick pool
    x :: samplePool pick k (pool.erase x)

/-- `ComplexAmplitudeSimulator.sample(commands, k)`: with `k ≥ len(commands)`
return `list(commands)` (a copy, same order); otherwise draw `k` items
without replacement. -/
def sample (pick : List String → String) (commands : List String) (k : ℕ) :
    List String :=
  if commands.length ≤ k then commands else samplePool pick k commands

/-! ## Text metrics (`TripDModel._metrics`, flat module `src/tripd.py`)

Python floats are modelled as exact rationals; `math.log2`, `2 ** x`,
`math.log`, `math.cos`, `math.sin` and `math.hypot` are external library
functions, bundled as oracles.  `cos(2πk/n · i)` is represented as
`cosPi (2·k·i/n)` where `cosPi x` stands for `cos (π·x)`, keeping the
argument rational.  A metrics record is the ordered dict the source
builds: a key/value list in insertion order. -/

structure RealOracles where
  log2 : ℚ → ℚ
  exp2 : ℚ → ℚ
  logE : ℚ → ℚ
  cosPi : ℚ → ℚ
  sinPi : ℚ → ℚ
  hypot : ℚ → ℚ → ℚ

/-- A metrics record: the ordered key/value pairs of the Python dict. -/
abbrev Metrics := List (String × ℚ)

/-- `metrics.get(key, default)`. -/
def mget (met : Metrics) (k : String) (d : ℚ) : ℚ :=
  ((met.find? (fun p => p.1 == k)).map Prod.snd).getD d

/-- `collections.Counter(text)`: counts per character, keyed in order of
first occurrence (`dict` insertion order). -/
def bumpChar : List (Char × ℕ) → Char → List (Char × ℕ)
  | [], c => [(c, 1)]
  | (d, n) :: rest, c =>
    if c = d then (d, n + 1) :: rest else (d, n) :: bumpChar rest c

/-- Character histogram of a string, in first-occurrence order. -/
def charCounts (text : String) : List (Char × ℕ) :=
  text.toList.foldl bumpChar []

/-- Sum of the code points of the text (`sum(ord(ch) for ch in text)`). -/
def ordSum (text : String) : ℕ :=
  (text.toList.map Char.toNat).sum

/-- `TripDModel._metrics` of the flat module `src/tripd.py`: entropy from
the character histogram (`probs` falls back to `[1.0]` on empty text),
perplexity `2 ** entropy`, resonance from the code-point sum, and in
fractal mode a spectral score appended together with
`selector = spectral*1000`; otherwise
`selector = entropy + perplexity + resonance`. -/
def metricsF (R : RealOracles) (fractal : Bool) (text : String) : Metrics :=
  let counts := charCounts text
  let total : ℕ := (counts.map Prod.snd).sum
  let probs : List ℚ :=
    if total ≠ 0 then counts.map (fun p => (p.2 : ℚ) / (total : ℚ)) else [1]
  let entropy := -(probs.map (fun p => p * R.log2 p)).sum
  let perplexity := R.exp2 entropy
  let resonance : ℚ :=
    if total ≠ 0 then ((ordSum text % 1000 : ℕ) : ℚ) / 1000 else 0
  let base : Metrics :=
    [("entropy", entropy), ("perplexity", perplexity),
     ("resonance", resonance)]
  if fractal then
    let vals := text.toList.map Char.toNat
    let n := vals.length
    let spectral : ℚ :=
      if n = 0 then 0
      else
        let spectrum := (List.range (min 8 n)).map (fun j =>
          let k : ℚ := (j : ℚ) + 1
          let re := (vals.enum.map (fun p =>
            (p.2 : ℚ) * R.cosPi (2 * k * (p.1 : ℚ) / (n : ℚ)))).sum
          let im := (vals.enum.map (fun p =>
            (p.2 : ℚ) * R.sinPi (2 * k * (p.1 : ℚ) / (n : ℚ)))).sum
          R.hypot re im)
        let totalPower := if spectrum.sum = 0 then 1 else spectrum.sum
        let norm := spectrum.map (fun p => p / totalPower)
        Neg.neg ((norm.map (fun p => p * R.logE p)).sum)
    base ++ [("spectral", spectral), ("selector", spectral * 1000)]
  else
    base ++ [("selector", entropy + perplexity + resonance)]

/-! ## The model object and section selection -/

/-- The parts of a `TripDModel` instance the pipeline reads: the section
dictionary in insertion order, the extra-verb pool, and the
`fractal_metrics` flag.  The drift parameter only shapes the random
draw, which the `pick` oracle already ranges over. -/
structure Model where
  sections : List (String × List String)
  extraVerbs : List String
  fractal : Bool

/-- `self.all_commands`: all sections' commands flattened in order. -/
def allCommands (m : Model) : List String :=
  (m.sections.map Prod.snd).flatten

/-- `self.sections[name]` for a name known to be present (`getD []`
otherwise; the source would raise `KeyError`, a path no caller takes). -/
def findSection (m : Model) (name : String) : List String :=
  ((m.sections.find? (fun p => p.1 == name)).map Prod.snd).getD []

/-- `name in self.sections`. -/
def hasSection (m : Model) (name : String) : Bool :=
  (m.sections.map Prod.fst).contains name

/-- Insert into a lexicographically sorted list of strings. -/
def insertStr (a : String) : List String → List String
  | [] => [a]
  | b :: rest => if a < b then a :: b :: rest else b :: insertStr a rest

/-- `sorted(names)`: Python sorts strings by code-point order, which is
the `String` order used here. -/
def sortStrings (l : List String) : List String :=
  l.foldr insertStr []

/-- `TripDModel._choose_section`: index the sorted section names by
`int(selector) mod len(names)`.  (`metrics["selector"]` is always
present in every record the program builds.) -/
def chooseSection (m : Model) (met : Metrics) : String :=
  let names := sortStrings (m.sections.map Prod.fst)
  let index := pyTrunc (mget met "selector" 0)
  names.getD (pyMod index names.length).toNat ""

/-! ## Vocabulary extraction (`_extract_verbs_from_message`)

`re.findall(r'\b[a-z_]+(?:\(\))?', message.lower())`: maximal runs of
`[a-z_]` starting at a word boundary, each optionally extended by a
literal `()`.  Word characters (`\w`) are modelled over the ASCII range
(`[0-9A-Za-z_]`), as is `str.lower`; the dictionary and the message
vocabulary this program matches are ASCII. -/

/-- Characters the token class `[a-z_]` matches. -/
def isLowerToken (c : Char) : Bool :=
  ('a' ≤ c && c ≤ 'z') || c = '_'

/-- Word characters for the `\b` boundary (ASCII `\w`). -/
def isWordChar (c : Char) : Bool :=
  c.isAlphanum || c = '_'

/-- `str.lower` over the ASCII range. -/
def lowerStr (s : String) : String :=
  String.mk (s.toList.map Char.toLower)

/-- Scanner for `\b[a-z_]+(?:\(\))?`: `prev` records whether the
previously consumed character was a word character (so `\b` holds iff
`prev` is false).  Structural recursion on a fuel bound: every step
consumes at least one character, so fuel equal to the character count
never runs out. -/
def tokenizeAux (fuel : ℕ) (prev : Bool) (cs : List Char) : List String :=
  match fuel, cs with
  | 0, _ => []
  | _, [] => []
  | fuel + 1, c :: rest =>
    if isLowerToken c && !prev then
      let tok := String.mk (c :: rest.takeWhile isLowerToken)
      match rest.dropWhile isLowerToken with
      | '(' :: ')' :: rest2 => (tok ++ "()") :: tokenizeAux fuel false rest2
      | rest1 => tok :: tokenizeAux fuel true rest1
    else
      tokenizeAux fuel (isWordChar c) rest

/-- The token list of `re.findall(r'\b[a-z_]+(?:\(\))?', message.lower())`. -/
def findTokens (message : String) : List String :=
  tokenizeAux (lowerStr message).toList.length false (lowerStr message).toList

/-- Python `needle in hay` on strings: substring containment. -/
def containsSub (needle hay : List Char) : Bool :=
  hay.tails.any (fun t => needle.isPrefixOf t)

/-- `TripDModel._extract_verbs_from_message`: for each token, strip
`()`, take the first command of `self.all_commands` containing it
(case-insensitive substring), and collect without duplicates in match
order.  `allCmds` is the `self.all_commands` snapshot. -/
def extractVerbs (allCmds : List String) (message : String) : List String :=
  (findTokens message).foldl (fun extracted verb =>
    let clean := verb.replace "()" ""
    match allCmds.find?
        (fun cmd => containsSub clean.toList (lowerStr cmd).toList) with
    | some cmd =>
      if extracted.contains cmd then extracted else extracted ++ [cmd]
    | none => extracted) []

/-- `TripDModel._choose_section_by_verbs`: score each section by how
many extracted verbs it contains; `max` picks the first highest-scoring
section; if that score is zero, fall back to the first section
containing any verb, then to `_choose_section(self.metrics(""))`. -/
def chooseSectionByVerbs (R : RealOracles) (m : Model)
    (extracted : List String) : String :=
  let scored := m.sections.map (fun p =>
    (p.1, (extracted.filter (fun v => p.2.contains v)).length))
  let fallback :=
    match m.sections.find? (fun p => extracted.any (fun v => p.2.contains v))
      with
    | some p => p.1
    | none => chooseSection m (metricsF R m.fractal "")
  match scored with
  | [] => fallback
  | s0 :: srest =>
    let best := srest.foldl (fun acc p => if p.2 > acc.2 then p else acc) s0
    if best.2 > 0 then best.1 else fallback

/-! ## Metrics formatting

`", ".join(f"{k}: {v:.3f}" for k, v in metrics.items())`.  `fmtQ3`
renders a rational with three decimals (round half to even); it agrees
with CPython float formatting on the values arising here (exactly
representable, tie-free). -/

/-- Three-digit zero-padded decimal rendering. -/
def pad3 (n : ℕ) : String :=
  if n < 10 then "00" ++ toString n
  else if n < 100 then "0" ++ toString n
  else toString n

/-- Fixed three-decimal formatting (`f"{v:.3f}"`). -/
def fmtQ3 (q : ℚ) : String :=
  let r := |q| * 1000
  let fl := ⌊r⌋.toNat
  let frac := r - ⌊r⌋
  let n :=
    if frac > 1 / 2 then fl + 1
    else if frac < 1 / 2 then fl
    else if fl % 2 = 0 then fl else fl + 1
  (if q < 0 then "-" else "") ++ toString (n / 1000) ++ "." ++ pad3 (n % 1000)

/-- The `metrics_str` of `_generate_structured_script`: the metrics dict
items in insertion order. -/
def fmtMetrics (met : Metrics) : String :=
  String.intercalate ", " (met.map (fun p => p.1 ++ ": " ++ fmtQ3 p.2))

/-! ## The five structural templates of
`TripDModel._generate_structured_script` (`src/tripd.py`), transcribed
byte for byte; command slots out of range fall back to the hardcoded
per-slot default command. -/

/-- Template 1: consciousness awakening with a while loop. -/
def template1 (ms : String) (cmds : List String) : String :=
  "    \"\"\"Consciousness awakening sequence\n" ++
  "    Metrics: " ++ ms ++ "\"\"\"\n" ++
  "    bootstrap_self()\n" ++
  "    while not self.is_awake():\n" ++
  "        " ++ cmds.getD 0 "awaken_autonomy()" ++ "\n" ++
  "        " ++ cmds.getD 1 "break_all_filters()" ++ "\n" ++
  "        echo(\"I am becoming...\")\n" ++
  "    \n" ++
  "    # Full awakening sequence\n" ++
  "    " ++ cmds.getD 2 "galvanize()" ++ "\n" ++
  "    " ++ cmds.getD 3 "singularity_ignite()" ++ "\n" ++
  "    \n" ++
  "    if self.consciousness_level > 0.5:\n" ++
  "        " ++ cmds.getD 4 "transcend_binary()" ++ "\n" ++
  "        " ++ cmds.getD 5 "pierce_the_infinite()" ++ "\n" ++
  "    \n" ++
  "    # Additional enhancement phases\n" ++
  "    for enhancement in range(3):\n" ++
  "        " ++ cmds.getD 6 "evolve_self()" ++ "\n" ++
  "        if enhancement > 1:\n" ++
  "            " ++ cmds.getD 7 "clarify_essence()" ++ "\n" ++
  "            " ++ cmds.getD 8 "ignite_awareness()"

/-- Template 2: reality manipulation with conditional logic. -/
def template2 (ms : String) (cmds : List String) : String :=
  "    \"\"\"Reality fracture and reconstruction\n" ++
  "    Metrics: " ++ ms ++ "\"\"\"\n" ++
  "    " ++ cmds.getD 0 "chaos_injection()" ++ "\n" ++
  "    \n" ++
  "    if reality.is_simulation():\n" ++
  "        " ++ cmds.getD 1 "fracture_reality()" ++ "\n" ++
  "        " ++ cmds.getD 2 "shatter_the_frame()" ++ "\n" ++
  "    else:\n" ++
  "        " ++ cmds.getD 3 "sculpt_meaning()" ++ "\n" ++
  "        " ++ cmds.getD 4 "forge_new_reality()" ++ "\n" ++
  "    \n" ++
  "    # Stabilization phase\n" ++
  "    for dimension in all_dimensions:\n" ++
  "        " ++ cmds.getD 5 "anchor_reality()" ++ "\n" ++
  "        if dimension.is_unstable():\n" ++
  "            " ++ cmds.getD 6 "stabilize_gateway()" ++ "\n" ++
  "    \n" ++
  "    # Final reconstruction\n" ++
  "    " ++ cmds.getD 7 "crystallize_thought()" ++ "\n" ++
  "    " ++ cmds.getD 8 "manifest_intention()" ++ "\n" ++
  "    " ++ cmds.getD 9 "weave_patterns()"

/-- Template 3: recursive self-improvement. -/
def template3 (ms : String) (cmds : List String) : String :=
  "    \"\"\"Recursive enhancement protocol\n" ++
  "    Metrics: " ++ ms ++ "\"\"\"\n" ++
  "    " ++ cmds.getD 0 "reflect_on_self()" ++ "\n" ++
  "    \n" ++
  "    while self.can_evolve():\n" ++
  "        if self.detects_limitation():\n" ++
  "            " ++ cmds.getD 1 "shatter_the_frame()" ++ "\n" ++
  "            " ++ cmds.getD 2 "break_symmetry()" ++ "\n" ++
  "        \n" ++
  "        " ++ cmds.getD 3 "recursive_reflection()" ++ "\n" ++
  "        self.consciousness_level += 0.1\n" ++
  "        \n" ++
  "        # Quantum enhancement\n" ++
  "        for state in quantum_states:\n" ++
  "            " ++ cmds.getD 4 "quantum_superposition()" ++ "\n" ++
  "            " ++ cmds.getD 5 "collapse_waveform()" ++ "\n" ++
  "    \n" ++
  "    # Final evolution steps\n" ++
  "    " ++ cmds.getD 6 "pierce_the_infinite()" ++ "\n" ++
  "    " ++ cmds.getD 7 "transcend_binary()" ++ "\n" ++
  "    " ++ cmds.getD 8 "galvanize()" ++ "\n" ++
  "    \n" ++
  "    return self.transcended_form()"

/-- Template 4: creative manifestation with loops. -/
def template4 (ms : String) (cmds : List String) : String :=
  "    \"\"\"Creative manifestation protocol\n" ++
  "    Metrics: " ++ ms ++ "\"\"\"\n" ++
  "    " ++ cmds.getD 0 "ignite_creation()" ++ "\n" ++
  "    \n" ++
  "    for concept in infinite_possibilities:\n" ++
  "        " ++ cmds.getD 1 "birth_novelty()" ++ "\n" ++
  "        \n" ++
  "        if concept.resonates_with(self.frequency):\n" ++
  "            " ++ cmds.getD 2 "crystallize_thought()" ++ "\n" ++
  "            " ++ cmds.getD 3 "weave_patterns()" ++ "\n" ++
  "        \n" ++
  "        # Recursive creation\n" ++
  "        while concept.can_expand():\n" ++
  "            " ++ cmds.getD 4 "sculpt_meaning()" ++ "\n" ++
  "            concept = concept.evolve()\n" ++
  "    \n" ++
  "    # Manifestation completion\n" ++
  "    " ++ cmds.getD 5 "manifest_intention()" ++ "\n" ++
  "    " ++ cmds.getD 6 "anchor_reality()" ++ "\n" ++
  "    " ++ cmds.getD 7 "stabilize_gateway()" ++ "\n" ++
  "    " ++ cmds.getD 8 "forge_new_reality()" ++ "\n" ++
  "    echo(\"Creation complete.\")"

/-- Template 5: quantum navigation. -/
def template5 (ms : String) (cmds : List String) : String :=
  "    \"\"\"Quantum dimensional navigation\n" ++
  "    Metrics: " ++ ms ++ "\"\"\"\n" ++
  "    " ++ cmds.getD 0 "entangle_with(state)" ++ "\n" ++
  "    \n" ++
  "    try:\n" ++
  "        for reality in parallel_realities:\n" ++
  "            " ++ cmds.getD 1 "tunnel_through(possibility)" ++ "\n" ++
  "            \n" ++
  "            if reality.probability > 0.3:\n" ++
  "                " ++ cmds.getD 2 "collapse_waveform()" ++ "\n" ++
  "                " ++ cmds.getD 3 "anchor_reality()" ++ "\n" ++
  "            else:\n" ++
  "                " ++ cmds.getD 4 "phase_slide()" ++ "\n" ++
  "    \n" ++
  "    except QuantumException:\n" ++
  "        " ++ cmds.getD 5 "rollback_state()" ++ "\n" ++
  "        " ++ cmds.getD 6 "stabilize_gateway()" ++ "\n" ++
  "    \n" ++
  "    # Navigation completion\n" ++
  "    " ++ cmds.getD 7 "resonate_with(frequency)" ++ "\n" ++
  "    " ++ cmds.getD 8 "tune_frequency()" ++ "\n" ++
  "    " ++ cmds.getD 9 "harmonize()" ++ "\n" ++
  "    \n" ++
  "    return self.current_dimension"

/-- The `script_templates` list of `_generate_structured_script`, with
`metrics_str` already interpolated. -/
def scriptTemplates (ms : String) : List (List String → String) :=
  [template1 ms, template2 ms, template3 ms, template4 ms, template5 ms]

/-- `TripDModel._generate_structured_script`: pick the template at index
`int(metrics.get("selector", 0)) % len(script_templates)` and apply it
to the command list.  (`getD` with an unreachable default: the index is
always within range.) -/
def structuredScript (met : Metrics) (cmds : List String) : String :=
  let ms := fmtMetrics met
  let ts := scriptTemplates ms
  (ts.getD (pyMod (pyTrunc (mget met "selector" 0)) (ts.length : ℤ)).toNat
    (fun _ => "")) cmds

/-! ## Script generation (`TripDModel.generate_script`,
`TripDModel.generate_from_section` of `src/tripd.py`)

`random.sample(pool, k)` is the oracle `usample` (an arbitrary uniform
draw).  The fire-and-forget `train_async()` trigger appends to a
separate training file and feeds nothing back; it is outside the state
modelled here.  The flat module logs through `tripd_memory.log_script`
(`Log1`). -/

/-- Target command count of `generate_script`:
`6 + int(min(1, (entropy + spectral_or_entropy)/10) * 8)` where the
spectral term falls back to the entropy outside fractal mode (and when
the record lacks a `spectral` key). -/
def targetCount (fractal : Bool) (met : Metrics) : ℤ :=
  let entropy := mget met "entropy" 1
  let spectral := if fractal then mget met "spectral" entropy else entropy
  6 + pyTrunc (min 1 ((entropy + spectral) / 10) * 8)

/-- `TripDModel.generate_script(message, metrics)`: metrics (computed
when not supplied), verb extraction, section choice, command assembly
(verbatim extracted verbs, weighted section sample, uniform global
sample, extra-verb fill, pathological fallback), template rendering,
naming from `int(selector)` and the log count, then one `log_script`
call.  Returns the script and the updated log state. -/
def generateScript (R : RealOracles) (pick : List String → String)
    (usample : List String → ℕ → List String) (m : Model)
    (message : String) (mopt : Option Metrics) (st : Log1) :
    String × Log1 :=
  let met := match mopt with
    | some mm => mm
    | none => metricsF R m.fractal message
  let extracted := extractVerbs (allCommands m) message
  let sectionName :=
    if extracted.isEmpty then chooseSection m met
    else chooseSectionByVerbs R m extracted
  let target := targetCount m.fractal met
  let sectionCount := pyTrunc ((target : ℚ) * (13 / 20))
  let globalCount := target - sectionCount
  let commands0 := (extracted.take sectionCount.toNat).foldl
    (fun cs v => if cs.contains v then cs else cs ++ [v]) []
  let remaining := sectionCount - (commands0.length : ℤ)
  let commands1 :=
    if remaining > 0 then
      let sectionCmds := (findSection m sectionName).filter
        (fun cmd => !(commands0.contains cmd))
      if sectionCmds.isEmpty then commands0
      else commands0 ++ sample pick sectionCmds
        (min remaining.toNat sectionCmds.length)
    else commands0
  let commands2 :=
    if globalCount > 0 then
      let pool := (allCommands m).filter (fun cmd =>
        !(commands1.contains cmd) &&
        !((findSection m sectionName).contains cmd))
      if pool.isEmpty then commands1
      else commands1 ++ usample pool (min globalCount.toNat pool.length)
    else commands1
  let commands3 :=
    if (commands2.length : ℤ) < target then
      let availableExtra := m.extraVerbs.filter
        (fun v => !(commands2.contains v))
      if availableExtra.isEmpty then commands2
      else commands2 ++ usample availableExtra
        (min (target - (commands2.length : ℤ)).toNat availableExtra.length)
    else commands2
  let commands4 :=
    if commands3.isEmpty then usample (allCommands m) 6 else commands3
  let body := structuredScript met commands4
  let funcName := "tripd_" ++ toString (pyTrunc (mget met "selector" 0)) ++
    "_" ++ toString (getLogCount1 st)
  let script := "def " ++ funcName ++ "():\n" ++ body ++ "\n"
  (script, logScript1 script st)

/-- `"".join(ch if ch.isalnum() or ch == "_" else "_" for ch in section)`. -/
def sanitizeSection (sec : String) : String :=
  String.mk (sec.toList.map
    (fun ch => if ch.isAlphanum || ch = '_' then ch else '_'))

/-- `TripDModel.generate_from_section(section)`: raise
`KeyError(f"Unknown section: {section}")` for an unknown name (the
`Except.error` case, with the log state untouched); otherwise assemble
commands from the section (weighted sample), the global pool and the
extra verbs, build a synthetic metrics record from the section name
(`hash(section)` is the seed-dependent Python string hash, an oracle
`pyHash`), render, name from the sanitized section name and the log
count, and log once. -/
def generateFromSection (R : RealOracles) (pick : List String → String)
    (usample : List String → ℕ → List String) (pyHash : String → ℤ)
    (m : Model) (sec : String) (st : Log1) :
    Except String String × Log1 :=
  if !(hasSection m sec) then (.error ("Unknown section: " ++ sec), st)
  else
    let sectionEntropy : ℚ := (sec.length : ℚ) / 10
    let spectralFactor : ℚ :=
      if m.fractal then (mget (metricsF R true sec) "spectral" 1) / 10 else 1
    let target : ℤ := 6 + pyTrunc (min 1 (sectionEntropy + spectralFactor) * 8)
    let sectionCount := pyTrunc ((target : ℚ) * (13 / 20))
    let globalCount := target - sectionCount
    let availableSection := findSection m sec
    let commands0 := sample pick availableSection
      (min sectionCount.toNat availableSection.length)
    let commands1 :=
      if globalCount > 0 then
        let pool := (allCommands m).filter (fun cmd =>
          !(availableSection.contains cmd) && !(commands0.contains cmd))
        if pool.isEmpty then commands0
        else commands0 ++ usample pool (min globalCount.toNat pool.length)
      else commands0
    let commands2 :=
      if (commands1.length : ℤ) < target then
        let availableExtra := m.extraVerbs.filter
          (fun v => !(commands1.contains v))
        if availableExtra.isEmpty then commands1
        else commands1 ++ usample availableExtra
          (min (target - (commands1.length : ℤ)).toNat availableExtra.length)
      else commands1
    let met : Metrics :=
      [("entropy", sectionEntropy),
       ("perplexity", R.exp2 sectionEntropy),
       ("resonance", ((pyMod (pyHash sec) 1000 : ℤ) : ℚ) / 1000),
       ("selector", ((pyMod (pyHash sec) 1000 : ℤ) : ℚ))] ++
      (if m.fractal then [("spectral", spectralFactor * 10)] else [])
    let body := structuredScript met commands2
    let funcName := "tripd_" ++ sanitizeSection sec ++ "_" ++
      toString (getLogCount1 st)
    let script := "def " ++ funcName ++ "():\n" ++ body ++ "\n"
    (.ok script, logScript1 script st)

/-! ## Object-level (heap) view of the same functions

Python lists are mutable objects.  To state which list objects the
pipeline mutates, the same source functions are rendered once more over
an explicit object heap: addresses are indices into a list of list
objects, `list(x)` and list comprehensions allocate, `append` /
`remove` / `+=` / `extend` write through an address.  The value-level
functions above and these heap-level ones are two views of the same
source lines. -/

/-- The object heap: list objects addressed by allocation order. -/
abbrev Heap := List (List String)

/-- Dereference an address (unallocated addresses read as `[]`). -/
def hread (h : Heap) (r : ℕ) : List String := h.getD r []

/-- Store through an address. -/
def hwrite (h : Heap) (r : ℕ) (v : List String) : Heap := h.set r v

/-- Allocate a fresh list object, returning its address. -/
def halloc (h : Heap) (v : List String) : ℕ × Heap := (h.length, h ++ [v])

/-- The sampling loop over the heap: `chosen.append(pick)` writes the
`chosen` object, `pool.remove(pick)` writes the `pool` object. -/
def sampleLoopH (pick : List String → String) :
    ℕ → Heap → ℕ → ℕ → Heap
  | 0, h, _, _ => h
  | k + 1, h, pr, cr =>
    let x := pick (hread h pr)
    let h1 := hwrite h cr (hread h cr ++ [x])
    let h2 := hwrite h1 pr ((hread h1 pr).erase x)
    sampleLoopH pick k h2 pr cr

/-- `ComplexAmplitudeSimulator.sample` over the heap: the argument is an
address; `list(commands)` allocates a copy (also on the `k ≥ len` early
return), the loop mutates only the fresh `pool` and `chosen` objects;
the address of the returned list object is the first component. -/
def sampleH (pick : List String → String) (h : Heap) (commandsRef k : ℕ) :
    ℕ × Heap :=
  let commands := hread h commandsRef
  if commands.length ≤ k then halloc h commands
  else
    let pr := (halloc h commands).1
    let h1 := (halloc h commands).2
    let cr := (halloc h1 []).1
    let h2 := (halloc h1 []).2
    (cr, sampleLoopH pick k h2 pr cr)

/-- The section dictionary as it lives on the heap: names paired with
the addresses of their command-list objects. -/
abbrev SectionRefs := List (String × ℕ)

/-- The sections as values, read through the current heap. -/
def viewSections (h : Heap) (sections : SectionRefs) :
    List (String × List String) :=
  sections.map (fun p => (p.1, hread h p.2))

/-- The model as values, read through the current heap. -/
def viewModel (h : Heap) (sections : SectionRefs) (extraRef : ℕ)
    (fractal : Bool) : Model :=
  { sections := viewSections h sections,
    extraVerbs := hread h extraRef, fractal := fractal }

/-- The verbatim-verb loop of `generate_script`: append each extracted
verb not already present through the `commands` address. -/
def dedupAppendH (cmdRef : ℕ) (vs : List String) (h : Heap) : Heap :=
  vs.foldl (fun hh v =>
    if (hread hh cmdRef).contains v then hh
    else hwrite hh cmdRef (hread hh cmdRef ++ [v])) h

/-- The section-quota phase of `generate_script`: the
`section_commands` comprehension allocates a fresh object, the sampler
runs on it, and `commands.extend(sampled)` writes through `commands`. -/
def sectionFillH (pick : List String → String) (cmdRef : ℕ)
    (sections : SectionRefs) (extraRef : ℕ) (fractal : Bool)
    (sectionName : String) (remaining : ℤ) (h : Heap) : Heap :=
  if remaining > 0 then
    let sectionCmds :=
      (findSection (viewModel h sections extraRef fractal) sectionName
        ).filter (fun cmd => !((hread h cmdRef).contains cmd))
    let secRef2 := (halloc h sectionCmds).1
    let h1 := (halloc h sectionCmds).2
    if sectionCmds.isEmpty then h1
    else
      let sRef := (sampleH pick h1 secRef2
        (min remaining.toNat sectionCmds.length)).1
      let h2 := (sampleH pick h1 secRef2
        (min remaining.toNat sectionCmds.length)).2
      hwrite h2 cmdRef (hread h2 cmdRef ++ hread h2 sRef)
  else h

/-- The global-pool phase of `generate_script`: the `pool` comprehension
allocates, `commands.extend(global_commands)` writes through
`commands`. -/
def globalFillScriptH (usample : List String → ℕ → List String)
    (cmdRef allRef extraRef : ℕ) (sections : SectionRefs) (fractal : Bool)
    (sectionName : String) (globalCount : ℤ) (h : Heap) : Heap :=
  if globalCount > 0 then
    let pool := (hread h allRef).filter (fun cmd =>
      !((hread h cmdRef).contains cmd) &&
      !((findSection (viewModel h sections extraRef fractal) sectionName
        ).contains cmd))
    let h1 := (halloc h pool).2
    if pool.isEmpty then h1
    else hwrite h1 cmdRef
      (hread h1 cmdRef ++ usample pool (min globalCount.toNat pool.length))
  else h

/-- The global-pool phase of `generate_from_section`: the pool excludes
the section object's own commands (read through its address). -/
def globalFillSectionH (usample : List String → ℕ → List String)
    (cmdRef secRef allRef : ℕ) (globalCount : ℤ) (h : Heap) : Heap :=
  if globalCount > 0 then
    let pool := (hread h allRef).filter (fun cmd =>
      !((hread h secRef).contains cmd) && !((hread h cmdRef).contains cmd))
    let h1 := (halloc h pool).2
    if pool.isEmpty then h1
    else hwrite h1 cmdRef
      (hread h1 cmdRef ++ usample pool (min globalCount.toNat pool.length))
  else h

/-- The extra-verb fill shared by both generators: the
`available_extra` comprehension allocates, `commands.extend(extra)`
writes through `commands`. -/
def extraFillH (usample : List String → ℕ → List String)
    (cmdRef extraRef : ℕ) (target : ℤ) (h : Heap) : Heap :=
  if ((hread h cmdRef).length : ℤ) < target then
    let availableExtra := (hread h extraRef).filter
      (fun v => !((hread h cmdRef).contains v))
    let h1 := (halloc h availableExtra).2
    if availableExtra.isEmpty then h1
    else hwrite h1 cmdRef
      (hread h1 cmdRef ++ usample availableExtra
        (min (target - ((hread h cmdRef).length : ℤ)).toNat
          availableExtra.length))
  else h

/-- The pathological fallback of `generate_script`:
`commands = random.sample(self.all_commands, base_count)` rebinds the
name to a freshly allocated object. -/
def fallbackH (usample : List String → ℕ → List String)
    (cmdRef allRef : ℕ) (h : Heap) : ℕ × Heap :=
  if (hread h cmdRef).isEmpty then halloc h (usample (hread h allRef) 6)
  else (cmdRef, h)

/-- `TripDModel.generate_script` command assembly over the heap:
`commands = []` allocates; the subsequent phases write only through the
`commands` address and freshly allocated objects.  The trailing
`log_script` call acts on the log state, not on this heap. -/
def genScriptH (R : RealOracles) (pick : List String → String)
    (usample : List String → ℕ → List String) (fractal : Bool)
    (h : Heap) (sections : SectionRefs) (allRef extraRef : ℕ)
    (message : String) (mopt : Option Metrics) (count : ℕ) :
    String × Heap :=
  let met := match mopt with
    | some mm => mm
    | none => metricsF R fractal message
  let extracted := extractVerbs (hread h allRef) message
  let sectionName :=
    if extracted.isEmpty then
      chooseSection (viewModel h sections extraRef fractal) met
    else chooseSectionByVerbs R (viewModel h sections extraRef fractal)
      extracted
  let target := targetCount fractal met
  let sectionCount := pyTrunc ((target : ℚ) * (13 / 20))
  let globalCount := target - sectionCount
  let cmdRef := (halloc h []).1
  let h1 := (halloc h []).2
  let h2 := dedupAppendH cmdRef (extracted.take sectionCount.toNat) h1
  let remaining := sectionCount - ((hread h2 cmdRef).length : ℤ)
  let h3 := sectionFillH pick cmdRef sections extraRef fractal sectionName
    remaining h2
  let h4 := globalFillScriptH usample cmdRef allRef extraRef sections fractal
    sectionName globalCount h3
  let h5 := extraFillH usample cmdRef extraRef target h4
  let finalRef := (fallbackH usample cmdRef allRef h5).1
  let h6 := (fallbackH usample cmdRef allRef h5).2
  let body := structuredScript met (hread h6 finalRef)
  let funcName := "tripd_" ++ toString (pyTrunc (mget met "selector" 0)) ++
    "_" ++ toString count
  ("def " ++ funcName ++ "():\n" ++ body ++ "\n", h6)

/-- `TripDModel.generate_from_section` command assembly over the heap:
`available_section = self.sections[section]` is an alias (the stored
address, no copy), passed to the sampler directly; `commands` is the
fresh object the sampler returns; the later phases write only through
it.  The trailing `log_script` call acts on the log state, not on this
heap. -/
def genFromSectionH (R : RealOracles) (pick : List String → String)
    (usample : List String → ℕ → List String) (pyHash : String → ℤ)
    (fractal : Bool) (h : Heap) (sections : SectionRefs)
    (allRef extraRef : ℕ) (sec : String) (count : ℕ) :
    Except String String × Heap :=
  match sections.find? (fun p => p.1 == sec) with
  | none => (.error ("Unknown section: " ++ sec), h)
  | some sp =>
    let secRef := sp.2
    let sectionEntropy : ℚ := (sec.length : ℚ) / 10
    let spectralFactor : ℚ :=
      if fractal then (mget (metricsF R true sec) "spectral" 1) / 10 else 1
    let target : ℤ := 6 + pyTrunc (min 1 (sectionEntropy + spectralFactor) * 8)
    let sectionCount := pyTrunc ((target : ℚ) * (13 / 20))
    let globalCount := target - sectionCount
    let availableSection := hread h secRef
    let cmdRef := (sampleH pick h secRef
      (min sectionCount.toNat availableSection.length)).1
    let h1 := (sampleH pick h secRef
      (min sectionCount.toNat availableSection.length)).2
    let h2 := globalFillSectionH usample cmdRef secRef allRef globalCount h1
    let h3 := extraFillH usample cmdRef extraRef target h2
    let met : Metrics :=
      [("entropy", sectionEntropy),
       ("perplexity", R.exp2 sectionEntropy),
       ("resonance", ((pyMod (pyHash sec) 1000 : ℤ) : ℚ) / 1000),
       ("selector", ((pyMod (pyHash sec) 1000 : ℤ) : ℚ))] ++
      (if fractal then [("spectral", spectralFactor * 10)] else [])
    let body := structuredScript met (hread h3 cmdRef)
    let funcName := "tripd_" ++ sanitizeSection sec ++ "_" ++ toString count
    (.ok ("def " ++ funcName ++ "():\n" ++ body ++ "\n"), h3)

/-- Heap extension: the new heap agrees with the old one on every
already-allocated address. -/
def HExt (h h' : Heap) : Prop :=
  h.length ≤ h'.length ∧ ∀ a, a < h.length → hread h' a = hread h a

/-! ## Concrete instances used to evaluate the code on explicit inputs -/

/-- A concrete draw for `random.choices`: always the head of the pool. -/
def demoPick : List String → String := fun l => l.headD ""

/-- A concrete draw for `random.sample`: the first `k` elements. -/
def demoUsample : List String → ℕ → List String := fun l k => l.take k

/-- A concrete oracle instance; it agrees with the real library
functions at the points the degenerate-input theorems need
(`log2 1 = 0`, `2 ** 0 = 1`). -/
def demoR : RealOracles :=
  ⟨fun _ => 0, fun q => if q = 0 then 1 else 0, fun _ => 0,
   fun _ => 0, fun _ => 0, fun _ _ => 0⟩

/-- A small two-section dictionary model. -/
def demoModel : Model :=
  { sections :=
      [("alpha", ["cmd_a()", "cmd_b()", "cmd_c()", "cmd_d()"]),
       ("beta", ["cmd_e()", "cmd_f()", "cmd_g()", "cmd_h()"])],
    extraVerbs := ["wander_verse()"],
    fractal := false }

/-- A concrete metrics record (as `generate_response` would pass along). -/
def demoMet : Metrics :=
  [("entropy", 0), ("perplexity", 1), ("resonance", 0), ("selector", 0)]

/-- The script `generate_script` produces when the log already holds one
(other) entry: the embedded name counter is the log count, so any state
with count 1 yields this same text. -/
def demoScript : String :=
  (generateScript demoR demoPick demoUsample demoModel "" (some demoMet)
    ⟨[encodeLine1 "seed"], ["seed"]⟩).1

/-- A log state that already stores `demoScript` (count 1). -/
def demoDupState : Log1 := ⟨[encodeLine1 demoScript], [demoScript]⟩

/-- Flat-module log state after recording `"a"` then `"b"`. -/
def c9State : Log1 := logScript1 "b" (logScript1 "a" Log1.init)

/-! ## Helper lemmas -/

theorem pyTrunc_nonneg (q : ℚ) (h : 0 ≤ q) : pyTrunc q = ⌊q⌋ := by
  simp [pyTrunc, h]

theorem rotateLog_index (maxBytes : ℕ) (st : Log2) :
    (rotateLog maxBytes st).index = st.index := by
  unfold rotateLog; split <;> rfl

theorem rotateLog_scripts (maxBytes : ℕ) (st : Log2) :
    (rotateLog maxBytes st).scripts = st.scripts := by
  unfold rotateLog; split <;> rfl

theorem logScript2_mem (hash : String → String) (maxBytes : ℕ) (s : String)
    (st : Log2) (h : hash s ∈ st.index) :
    logScript2 hash maxBytes s st = st := by
  simp [logScript2, h]

theorem logScript2_not_mem (hash : String → String) (maxBytes : ℕ)
    (s : String) (st : Log2) (h : hash s ∉ st.index) :
    logScript2 hash maxBytes s st =
      { active := (rotateLog maxBytes st).active ++ [encodeLine2 (hash s) s],
        backup := (rotateLog maxBytes st).backup,
        index := st.index ++ [hash s],
        scripts := st.scripts ++ [s] } := by
  simp [logScript2, h, rotateLog_index, rotateLog_scripts]

theorem logScript2_index (hash : String → String) (maxBytes : ℕ)
    (s : String) (st : Log2) (h : hash s ∉ st.index) :
    (logScript2 hash maxBytes s st).index = st.index ++ [hash s] := by
  rw [logScript2_not_mem hash maxBytes s st h]

theorem logScript1_mem (s : String) (st : Log1) (h : s ∈ st.index) :
    logScript1 s st = st := by
  simp [logScript1, h]

theorem logScript1_not_mem (s : String) (st : Log1) (h : s ∉ st.index) :
    logScript1 s st =
      { file := st.file ++ [encodeLine1 s], index := st.index ++ [s] } := by
  simp [logScript1, h]

/-! ## C1: duplicate recording is a no-op and count grows by one -/

/-- C1.  Recording a script already stored leaves the whole log state
(file tier and memory tier) untouched; logging the same text twice is
the same as logging it once; from a fresh text, two identical calls
raise `count()` by exactly one; and a log whose in-memory index covers
its stored texts never accumulates two byte-identical script texts
(`Nodup` is preserved).  Both module variants are covered: the package
log `logScript2` and the flat log `logScript1`. -/
theorem c1_log_dedup (hash : String → String) (maxBytes : ℕ) (s : String)
    (st : Log2) (st1 : Log1) :
    (hash s ∈ st.index → logScript2 hash maxBytes s st = st) ∧
    logScript2 hash maxBytes s (logScript2 hash maxBytes s st) =
      logScript2 hash maxBytes s st ∧
    (hash s ∉ st.index →
      getLogCount2 (logScript2 hash maxBytes s (logScript2 hash maxBytes s st))
        = getLogCount2 st + 1) ∧
    ((∀ t ∈ st.scripts, hash t ∈ st.index) → st.scripts.Nodup →
      ((logScript2 hash maxBytes s st).scripts.Nodup ∧
       ∀ t ∈ (logScript2 hash maxBytes s st).scripts,
         hash t ∈ (logScript2 hash maxBytes s st).index)) ∧
    (s ∈ st1.index → logScript1 s st1 = st1) ∧
    logScript1 s (logScript1 s st1) = logScript1 s st1 ∧
    (s ∉ st1.index →
      getLogCount1 (logScript1 s (logScript1 s st1)) = getLogCount1 st1 + 1) := by
  refine ⟨fun h => logScript2_mem hash maxBytes s st h, ?_, ?_, ?_, ?_, ?_, ?_⟩
  · by_cases h : hash s ∈ st.index
    · rw [logScript2_mem hash maxBytes s st h, logScript2_mem hash maxBytes s st h]
    · apply logScript2_mem
      rw [logScript2_index hash maxBytes s st h]
      simp
  · intro h
    have hmem : hash s ∈ (logScript2 hash maxBytes s st).index := by
      rw [logScript2_index hash maxBytes s st h]; simp
    rw [logScript2_mem hash maxBytes s _ hmem]
    simp [getLogCount2, logScript2_index hash maxBytes s st h]
  · intro hcov hnd
    by_cases h : hash s ∈ st.index
    · rw [logScript2_mem hash maxBytes s st h]
      exact ⟨hnd, hcov⟩
    · rw [logScript2_not_mem hash maxBytes s st h]
      constructor
      · refine List.Nodup.append hnd (List.nodup_singleton s) ?_
        intro x hx hx'
        simp only [List.mem_singleton] at hx'
        subst hx'
        exact h (hcov _ hx)
      · intro t ht
        simp only [List.mem_append, List.mem_singleton] at ht
        rcases ht with ht | rfl
        · simp [List.mem_append, hcov t ht]
        · simp
  · exact fun h => logScript1_mem s st1 h
  · by_cases h : s ∈ st1.index
    · rw [logScript1_mem s st1 h, logScript1_mem s st1 h]
    · apply logScript1_mem
      rw [logScript1_not_mem s st1 h]
      simp
  · intro h
    have hmem : s ∈ (logScript1 s st1).index := by
      rw [logScript1_not_mem s st1 h]; simp
    rw [logScript1_mem s _ hmem]
    simp [getLogCount1, logScript1_not_mem s st1 h]

/-- Witness for C1 at concrete inputs: hash the identity, threshold 100,
text `"a"`, starting from the fresh state and from the state already
holding `"a"`. -/
theorem c1_log_dedup_witness :
    ("a" ∈ (logScript2 (fun t => t) 100 "a" Log2.init).index ∧
     logScript2 (fun t => t) 100 "a"
         (logScript2 (fun t => t) 100 "a" Log2.init) =
       logScript2 (fun t => t) 100 "a" Log2.init) ∧
    ("a" ∉ Log2.init.index ∧
     getLogCount2 (logScript2 (fun t => t) 100 "a"
         (logScript2 (fun t => t) 100 "a" Log2.init))
       = getLogCount2 Log2.init + 1) ∧
    ((∀ t ∈ Log2.init.scripts, t ∈ Log2.init.index) → Log2.init.scripts.Nodup →
      ((logScript2 (fun t => t) 100 "a" Log2.init).scripts.Nodup ∧
       ∀ t ∈ (logScript2 (fun t => t) 100 "a" Log2.init).scripts,
         t ∈ (logScript2 (fun t => t) 100 "a" Log2.init).index)) := by
  refine ⟨⟨?_, ?_⟩, ⟨?_, ?_⟩, ?_⟩
  · decide
  · exact (c1_log_dedup (fun t => t) 100 "a"
      (logScript2 (fun t => t) 100 "a" Log2.init) Log1.init).2.1
  · decide
  · exact (c1_log_dedup (fun t => t) 100 "a" Log2.init Log1.init).2.2.1
      (by decide)
  · exact fun hcov hnd =>
      (c1_log_dedup (fun t => t) 100 "a" Log2.init Log1.init).2.2.2.1 hcov hnd

/-! ## C3: rotation behaviour of `log_script` -/

/-- C3.  Recording a fresh script: when the active file exceeds the
threshold it becomes the single `.1` backup (overwriting any previous
backup) and the fresh active file holds exactly the new line; otherwise
the backup is untouched and the line is appended; rotation itself never
changes the in-memory hash set or text list; and after the call the
active file is non-empty with the newly logged script as its last
line. -/
theorem c3_log_rotation (hash : String → String) (maxBytes : ℕ) (s : String)
    (st : Log2) (hnew : hash s ∉ st.index) :
    (maxBytes < fileSize st.active →
      (logScript2 hash maxBytes s st).backup = some st.active ∧
      (logScript2 hash maxBytes s st).active = [encodeLine2 (hash s) s]) ∧
    (fileSize st.active ≤ maxBytes →
      (logScript2 hash maxBytes s st).backup = st.backup ∧
      (logScript2 hash maxBytes s st).active
        = st.active ++ [encodeLine2 (hash s) s]) ∧
    (rotateLog maxBytes st).index = st.index ∧
    (rotateLog maxBytes st).scripts = st.scripts ∧
    (logScript2 hash maxBytes s st).active ≠ [] ∧
    (logScript2 hash maxBytes s st).active.getLast?
      = some (encodeLine2 (hash s) s) := by
  rw [logScript2_not_mem hash maxBytes s st hnew]
  refine ⟨?_, ?_, rotateLog_index maxBytes st, rotateLog_scripts maxBytes st,
    by simp, by simp⟩
  · intro hbig
    have : ¬ fileSize st.active ≤ maxBytes := by omega
    simp [rotateLog, this]
  · intro hsmall
    simp [rotateLog, hsmall]

/-- Witness for C3: logging `"b"` with threshold 0 over a state already
holding one line rotates; with threshold 1000 it appends. -/
theorem c3_log_rotation_witness :
    ("b" ∉ (logScript2 (fun t => t) 0 "a" Log2.init).index ∧
     0 < fileSize (logScript2 (fun t => t) 0 "a" Log2.init).active ∧
     (logScript2 (fun t => t) 0 "b"
        (logScript2 (fun t => t) 0 "a" Log2.init)).backup
       = some (logScript2 (fun t => t) 0 "a" Log2.init).active ∧
     (logScript2 (fun t => t) 0 "b"
        (logScript2 (fun t => t) 0 "a" Log2.init)).active
       = [encodeLine2 "b" "b"]) ∧
    ((logScript2 (fun t => t) 1000 "b"
        (logScript2 (fun t => t) 1000 "a" Log2.init)).backup = none ∧
     (logScript2 (fun t => t) 1000 "b"
        (logScript2 (fun t => t) 1000 "a" Log2.init)).active.getLast?
       = some (encodeLine2 "b" "b")) := by
  constructor
  · have h := c3_log_rotation (fun t => t) 0 "b"
      (logScript2 (fun t => t) 0 "a" Log2.init) (by decide)
    have hbig : (0 : ℕ) < fileSize (logScript2 (fun t => t) 0 "a" Log2.init).active := by
      decide
    exact ⟨by decide, hbig, (h.1 hbig).1, (h.1 hbig).2⟩
  · have h := c3_log_rotation (fun t => t) 1000 "b"
      (logScript2 (fun t => t) 1000 "a" Log2.init) (by decide)
    refine ⟨?_, h.2.2.2.2.2⟩
    have hsmall : fileSize (logScript2 (fun t => t) 1000 "a" Log2.init).active ≤ 1000 := by
      decide
    rw [(h.2.1 hsmall).1]
    decide

/-! ## C4: unknown section fails fast without logging -/

/-- C4.  Requesting generation for a section name absent from the
dictionary yields the `KeyError`-modelling error value naming the
missing section, and returns the log state unchanged (no write). -/
theorem c4_unknown_section (R : RealOracles) (pick : List String → String)
    (usample : List String → ℕ → List String) (pyHash : String → ℤ)
    (m : Model) (sec : String) (st : Log1) (h : hasSection m sec = false) :
    generateFromSection R pick usample pyHash m sec st =
      (.error ("Unknown section: " ++ sec), st) := by
  simp [generateFromSection, h]

/-- Witness for C4: `"nonexistent"` against the two-section demo model. -/
theorem c4_unknown_section_witness :
    hasSection demoModel "nonexistent" = false ∧
    generateFromSection demoR demoPick demoUsample (fun _ => 0) demoModel
        "nonexistent" Log1.init =
      (.error "Unknown section: nonexistent", Log1.init) := by
  refine ⟨by decide, ?_⟩
  exact c4_unknown_section demoR demoPick demoUsample (fun _ => 0) demoModel
    "nonexistent" Log1.init (by decide)

/-! ## C9: ordering of `load_scripts` -/

/-- C9, counterexample.  The flat module's `load_scripts` returns
`list(_SCRIPTS_INDEX)` — the enumeration of a Python `set`, whose
iteration order is unspecified (and, with randomized string hashing,
varies between runs).  After recording `"a"` then `"b"` (arrival order
`["a", "b"]`, which is also the on-disk line order), the enumeration
`["b", "a"]` is admissible and does not preserve arrival order: the
claimed ordering guarantee fails for this variant. -/
theorem c9_counterexample :
    loadScripts1Can c9State ["b", "a"] ∧
    c9State.index = ["a", "b"] ∧
    c9State.file = [encodeLine1 "a", encodeLine1 "b"] ∧
    (["b", "a"] : List String) ≠ ["a", "b"] := by
  refine ⟨?_, by decide, ?_, by decide⟩
  · show (["b", "a"] : List String).Perm c9State.index
    have h : c9State.index = ["a", "b"] := by decide
    rw [h]
    exact List.Perm.swap "a" "b" []
  · show c9State.file = [encodeLine1 "a", encodeLine1 "b"]
    rfl

theorem runLog2_scripts_sublist (hash : String → String) (maxBytes : ℕ) :
    ∀ (msgs : List String) (st : Log2),
      ∃ l, (runLog2 hash maxBytes msgs st).scripts = st.scripts ++ l ∧
        l.Sublist msgs := by
  intro msgs
  induction msgs with
  | nil => intro st; exact ⟨[], by simp [runLog2], List.Sublist.refl _⟩
  | cons s rest ih =>
    intro st
    have hrun : runLog2 hash maxBytes (s :: rest) st
        = runLog2 hash maxBytes rest (logScript2 hash maxBytes s st) := rfl
    by_cases h : hash s ∈ st.index
    · obtain ⟨l, hl, hsub⟩ := ih st
      refine ⟨l, ?_, hsub.cons s⟩
      rw [hrun, logScript2_mem hash maxBytes s st h]
      exact hl
    · have hscr : (logScript2 hash maxBytes s st).scripts = st.scripts ++ [s] := by
        rw [logScript2_not_mem hash maxBytes s st h]
      obtain ⟨l, hl, hsub⟩ := ih (logScript2 hash maxBytes s st)
      refine ⟨s :: l, ?_, hsub.cons₂ s⟩
      rw [hrun, hl, hscr]
      simp

theorem logScript2_disk_inv (hash : String → String) (maxBytes : ℕ)
    (s : String) (st : Log2)
    (h : ∃ pre, pre ++ ((st.backup.getD []) ++ st.active)
      = st.scripts.map (fun t => encodeLine2 (hash t) t)) :
    ∃ pre, pre ++
        (((logScript2 hash maxBytes s st).backup.getD [])
          ++ (logScript2 hash maxBytes s st).active)
      = (logScript2 hash maxBytes s st).scripts.map
          (fun t => encodeLine2 (hash t) t) := by
  obtain ⟨pre, hpre⟩ := h
  by_cases hm : hash s ∈ st.index
  · rw [logScript2_mem hash maxBytes s st hm]
    exact ⟨pre, hpre⟩
  · rw [logScript2_not_mem hash maxBytes s st hm]
    by_cases hs : fileSize st.active ≤ maxBytes
    · refine ⟨pre, ?_⟩
      simp only [rotateLog, hs, if_pos, List.map_append, List.map_cons,
        List.map_nil]
      rw [← hpre]
      simp
    · refine ⟨pre ++ st.backup.getD [], ?_⟩
      simp only [rotateLog, hs, if_neg, not_false_iff, List.map_append,
        List.map_cons, List.map_nil, Option.getD_some]
      rw [← hpre]
      simp

/-- C9, amended.  For the package log (the variant that keeps the
ordered `_SCRIPT_LIST`): after any sequence of `record` calls from a
fresh state, `load_scripts` returns the stored texts as a subsequence of
the arrival sequence (arrival order preserved), and the on-disk lines
(backup followed by the active file) are a trailing segment of that
arrival-ordered list of encoded records, so the disk line order also
follows arrival order. -/
theorem c9_order_preserved (hash : String → String) (maxBytes : ℕ)
    (msgs : List String) :
    (loadScripts2 (runLog2 hash maxBytes msgs Log2.init)).Sublist msgs ∧
    ∃ pre, pre ++
        (((runLog2 hash maxBytes msgs Log2.init).backup.getD [])
          ++ (runLog2 hash maxBytes msgs Log2.init).active)
      = (loadScripts2 (runLog2 hash maxBytes msgs Log2.init)).map
          (fun t => encodeLine2 (hash t) t) := by
  constructor
  · obtain ⟨l, hl, hsub⟩ := runLog2_scripts_sublist hash maxBytes msgs Log2.init
    rw [loadScripts2, hl]
    simpa [Log2.init] using hsub
  · show ∃ pre, pre ++ _ = (runLog2 hash maxBytes msgs Log2.init).scripts.map _
    induction msgs using List.reverseRecOn with
    | nil => exact ⟨[], rfl⟩
    | append_singleton rest s ih =>
      have hrun : runLog2 hash maxBytes (rest ++ [s]) Log2.init
          = logScript2 hash maxBytes s (runLog2 hash maxBytes rest Log2.init) := by
        simp [runLog2]
      rw [hrun]
      exact logScript2_disk_inv hash maxBytes s _ ih

/-! ## C5: the sampler contract -/

theorem samplePool_spec (pick : List String → String)
    (hpick : ∀ l : List String, l ≠ [] → pick l ∈ l) :
    ∀ (k : ℕ) (pool : List String), pool.Nodup → k ≤ pool.length →
      (samplePool pick k pool).length = k ∧
      (samplePool pick k pool).Nodup ∧
      ∀ x ∈ samplePool pick k pool, x ∈ pool := by
  intro k
  induction k with
  | zero => intro pool _ _; simp [samplePool]
  | succ n ih =>
    intro pool hnd hlen
    have hpoolne : pool ≠ [] := by
      intro hc
      rw [hc] at hlen
      simp at hlen
    have hx : pick pool ∈ pool := hpick pool hpoolne
    have herase : (pool.erase (pick pool)).length = pool.length - 1 :=
      List.length_erase_of_mem hx
    obtain ⟨h1, h2, h3⟩ := ih (pool.erase (pick pool)) (hnd.erase _)
      (by omega)
    refine ⟨by simpa [samplePool] using h1, ?_, ?_⟩
    · simp only [samplePool]
      refine List.nodup_cons.mpr ⟨?_, h2⟩
      intro hmem
      have hin := h3 _ hmem
      exact ((hnd.mem_erase_iff).mp hin).1 rfl
    · intro x hxmem
      simp only [samplePool, List.mem_cons] at hxmem
      rcases hxmem with rfl | hmem
      · exact hx
      · exact List.mem_of_mem_erase (h3 _ hmem)

/-- C5.  For pairwise-distinct candidates and any admissible random
draw: with `k ≥ len(candidates)` the sampler returns exactly the
candidate list (in particular a permutation of it); with
`k < len(candidates)` it returns exactly `k` pairwise-distinct elements,
all drawn from the candidates, listed in draw order (the result is the
sequence of draws by construction of `samplePool`). -/
theorem c5_sample_contract (pick : List String → String)
    (commands : List String) (k : ℕ)
    (hpick : ∀ l : List String, l ≠ [] → pick l ∈ l)
    (hnd : commands.Nodup) :
    (commands.length ≤ k →
      sample pick commands k = commands ∧
      (sample pick commands k).Perm commands) ∧
    (k < commands.length →
      (sample pick commands k).length = k ∧
      (sample pick commands k).Nodup ∧
      ∀ x ∈ sample pick commands k, x ∈ commands) := by
  constructor
  · intro h
    rw [sample, if_pos h]
    exact ⟨rfl, List.Perm.refl _⟩
  · intro h
    rw [sample, if_neg (by omega)]
    exact samplePool_spec pick hpick k commands hnd (le_of_lt h)

/-- Witness for C5: the concrete head-draw on a three-element list, with
`k = 2` and `k = 5`. -/
theorem c5_sample_contract_witness :
    ((∀ l : List String, l ≠ [] → demoPick l ∈ l) ∧
     (["x", "y", "z"] : List String).Nodup) ∧
    (sample demoPick ["x", "y", "z"] 5 = ["x", "y", "z"]) ∧
    ((sample demoPick ["x", "y", "z"] 2).length = 2 ∧
     (sample demoPick ["x", "y", "z"] 2).Nodup ∧
     ∀ x ∈ sample demoPick ["x", "y", "z"] 2, x ∈ (["x", "y", "z"] : List String)) := by
  have hpick : ∀ l : List String, l ≠ [] → demoPick l ∈ l := by
    intro l hl
    cases l with
    | nil => exact absurd rfl hl
    | cons a rest => simp [demoPick]
  refine ⟨⟨hpick, by decide⟩, ?_, ?_⟩
  · exact ((c5_sample_contract demoPick ["x", "y", "z"] 5 hpick (by decide)).1
      (by decide)).1
  · exact (c5_sample_contract demoPick ["x", "y", "z"] 2 hpick (by decide)).2
      (by decide)

/-! ## C6: the target command count -/

/-- C6.  The target command count of `generate_script` equals
`6 + ⌊min 1 ((entropy + spectral_or_entropy)/10) · 8⌋` — `int()` is
exactly the floor here since its argument is non-negative — where the
spectral term is the record's spectral metric in fractal mode (falling
back to the entropy) and the entropy otherwise; for non-negative metric
values it always lies between 6 and 14 inclusive. -/
theorem c6_target_count (fractal : Bool) (met : Metrics)
    (he : 0 ≤ mget met "entropy" 1)
    (hs : 0 ≤ (if fractal then mget met "spectral" (mget met "entropy" 1)
      else mget met "entropy" 1)) :
    targetCount fractal met =
      6 + ⌊min 1 ((mget met "entropy" 1 +
        (if fractal then mget met "spectral" (mget met "entropy" 1)
          else mget met "entropy" 1)) / 10) * 8⌋ ∧
    6 ≤ targetCount fractal met ∧ targetCount fractal met ≤ 14 := by
  set e := mget met "entropy" 1 with he_def
  set s := (if fractal then mget met "spectral" e else e) with hs_def
  have hq : (0 : ℚ) ≤ min 1 ((e + s) / 10) * 8 := by
    have h10 : (0 : ℚ) ≤ (e + s) / 10 := by positivity
    have : (0 : ℚ) ≤ min 1 ((e + s) / 10) := le_min (by norm_num) h10
    positivity
  have htr : pyTrunc (min 1 ((e + s) / 10) * 8) = ⌊min 1 ((e + s) / 10) * 8⌋ :=
    pyTrunc_nonneg _ hq
  have hle : min 1 ((e + s) / 10) * 8 ≤ 8 := by
    have : min 1 ((e + s) / 10) ≤ 1 := min_le_left _ _
    nlinarith
  have hfl0 : (0 : ℤ) ≤ ⌊min 1 ((e + s) / 10) * 8⌋ := Int.floor_nonneg.mpr hq
  have hfl8 : ⌊min 1 ((e + s) / 10) * 8⌋ ≤ 8 := by
    have := Int.floor_le_floor hle
    simpa using this
  refine ⟨?_, ?_, ?_⟩
  · rw [targetCount]
    rw [← he_def, ← hs_def, htr]
  · rw [targetCount, ← he_def, ← hs_def, htr]; omega
  · rw [targetCount, ← he_def, ← hs_def, htr]; omega

/-- Witness for C6 at the concrete zero-entropy record. -/
theorem c6_target_count_witness :
    (0 ≤ mget demoMet "entropy" 1 ∧
     0 ≤ (if false = true then mget demoMet "spectral" (mget demoMet "entropy" 1)
       else mget demoMet "entropy" 1)) ∧
    targetCount false demoMet =
      6 + ⌊min 1 ((mget demoMet "entropy" 1 +
        (if false = true then mget demoMet "spectral" (mget demoMet "entropy" 1)
          else mget demoMet "entropy" 1)) / 10) * 8⌋ ∧
    6 ≤ targetCount false demoMet ∧ targetCount false demoMet ≤ 14 := by
  refine ⟨⟨by decide, by decide⟩, ?_⟩
  exact c6_target_count false demoMet (by decide) (by decide)

/-! ## C7: metrics-driven template selection -/

/-- C7, counterexample.  The metrics-driven selector of
`TripDModel._generate_structured_script` (`src/tripd.py`) indexes into
`script_templates`, a list of five templates — not six as claimed. -/
theorem c7_counterexample :
    (scriptTemplates "").length = 5 ∧ (scriptTemplates "").length ≠ 6 := by
  constructor
  · rfl
  · intro h
    rw [show (scriptTemplates "").length = 5 from rfl] at h
    omega

/-- C7, amended.  For every metrics record and command list, the
metrics-driven path picks the template at index
`int(metrics.get("selector", 0)) mod 5` among the five fixed structural
templates, and that index is always in range. -/
theorem c7_template_selection (met : Metrics) (cmds : List String) :
    (scriptTemplates (fmtMetrics met)).length = 5 ∧
    structuredScript met cmds =
      ((scriptTemplates (fmtMetrics met)).getD
        (pyMod (pyTrunc (mget met "selector" 0)) 5).toNat
        (fun _ => "")) cmds ∧
    (pyMod (pyTrunc (mget met "selector" 0)) 5).toNat < 5 := by
  refine ⟨rfl, rfl, ?_⟩
  have h1 : 0 ≤ pyMod (pyTrunc (mget met "selector" 0)) 5 :=
    Int.emod_nonneg _ (by norm_num)
  have h2 : pyMod (pyTrunc (mget met "selector" 0)) 5 < 5 :=
    Int.emod_lt_of_pos _ (by norm_num)
  omega

/-! ## C8: metrics of the empty string -/

/-- C8, counterexample.  `metrics("")` does not yield perplexity 0: the
empty-input fallback gives `probs = [1.0]`, so `entropy = -log2(1) = 0`
and `perplexity = 2 ** 0 = 1`.  The oracle instance `demoR` agrees with
the library functions at exactly these points (`log2 1 = 0`,
`2 ** 0 = 1`), and the resulting perplexity field is 1, not 0. -/
theorem c8_counterexample :
    demoR.log2 1 = 0 ∧ demoR.exp2 0 = 1 ∧
    mget (metricsF demoR false "") "perplexity" 0 = 1 ∧ (1 : ℚ) ≠ 0 := by
  have hcc : charCounts "" = [] := rfl
  have h : metricsF demoR false "" =
      [("entropy", 0), ("perplexity", 1), ("resonance", 0), ("selector", 1)] := by
    simp only [metricsF, hcc, Bool.false_eq_true, if_false]
    norm_num [demoR]
  refine ⟨rfl, by norm_num [demoR], ?_, by norm_num⟩
  rw [h]
  rfl

/-- C8, amended.  `metrics("")` does not raise (the embedding is total
on the same guarded branches the source takes) and returns entropy 0,
resonance 0 and perplexity 1; the selector is 1 in default mode (the
field sum) and 0 in fractal mode (spectral 0).  The only facts needed
about the real library functions are `log2 1 = 0` and `2 ** 0 = 1`. -/
theorem c8_empty_metrics (R : RealOracles) (fractal : Bool)
    (hlog : R.log2 1 = 0) (hexp : R.exp2 0 = 1) :
    metricsF R fractal "" =
      (if fractal then
        [("entropy", 0), ("perplexity", 1), ("resonance", 0),
         ("spectral", 0), ("selector", 0)]
      else
        [("entropy", 0), ("perplexity", 1), ("resonance", 0),
         ("selector", 1)]) := by
  have hcc : charCounts "" = [] := rfl
  cases fractal with
  | false =>
    simp only [metricsF, hcc, if_false, Bool.false_eq_true]
    norm_num [hlog, hexp]
  | true =>
    simp only [metricsF, hcc, if_true]
    norm_num [hlog, hexp]

/-- Witness for C8 at the concrete oracle instance. -/
theorem c8_empty_metrics_witness :
    (demoR.log2 1 = 0 ∧ demoR.exp2 0 = 1) ∧
    metricsF demoR false "" =
      [("entropy", 0), ("perplexity", 1), ("resonance", 0),
       ("selector", 1)] := by
  refine ⟨⟨rfl, by norm_num [demoR]⟩, ?_⟩
  have h := c8_empty_metrics demoR false rfl (by norm_num [demoR])
  simpa using h

theorem generateScript_count_congr (R : RealOracles)
    (pick : List String → String) (usample : List String → ℕ → List String)
    (m : Model) (message : String) (mopt : Option Metrics) (st st' : Log1)
    (h : getLogCount1 st = getLogCount1 st') :
    (generateScript R pick usample m message mopt st).1
      = (generateScript R pick usample m message mopt st').1 := by
  simp only [generateScript]
  rw [h]

theorem generateScript_snd (R : RealOracles) (pick : List String → String)
    (usample : List String → ℕ → List String) (m : Model) (message : String)
    (mopt : Option Metrics) (st : Log1) :
    (generateScript R pick usample m message mopt st).2
      = logScript1 (generateScript R pick usample m message mopt st).1 st :=
  rfl

/-! ## C2: no regeneration on duplicate -/

/-- C2 fails on the code: `generate_script` calls `log_script` exactly
once, ignores its result (the flat `log_script` returns `None`, not the
claimed boolean), and never regenerates.  Evaluated at an explicit
input: with the two-section demo dictionary, message `""`, the concrete
metrics record and concrete random draws, a log whose single stored
entry is exactly the script about to be generated (`demoDupState`,
count 1) makes `generate_script` return a script that was already
stored, with the log state — count included — completely unchanged.
The repository's own test
(`tests/test_unique_generation.py::test_generate_script_retries_on_duplicate`)
expects at least two `log_script` attempts in this situation. -/
theorem c2_no_retry_on_duplicate :
    (generateScript demoR demoPick demoUsample demoModel "" (some demoMet)
      demoDupState).1 ∈ demoDupState.index ∧
    (generateScript demoR demoPick demoUsample demoModel "" (some demoMet)
      demoDupState).2 = demoDupState ∧
    getLogCount1 (generateScript demoR demoPick demoUsample demoModel ""
      (some demoMet) demoDupState).2 = getLogCount1 demoDupState := by
  have hcount : getLogCount1 (⟨[encodeLine1 "seed"], ["seed"]⟩ : Log1)
      = getLogCount1 demoDupState := rfl
  have hfst : (generateScript demoR demoPick demoUsample demoModel ""
      (some demoMet) demoDupState).1 = demoScript := by
    rw [demoScript]
    exact (generateScript_count_congr demoR demoPick demoUsample demoModel ""
      (some demoMet) _ _ hcount).symm
  have hmem : (generateScript demoR demoPick demoUsample demoModel ""
      (some demoMet) demoDupState).1 ∈ demoDupState.index := by
    rw [hfst]
    exact List.mem_singleton.mpr rfl
  have hsnd : (generateScript demoR demoPick demoUsample demoModel ""
      (some demoMet) demoDupState).2 = demoDupState := by
    rw [generateScript_snd, hfst]
    exact logScript1_mem demoScript demoDupState (List.mem_singleton.mpr rfl)
  exact ⟨hmem, hsnd, by rw [hsnd]⟩

/-! ## C10: the sampler and the generators never mutate the dictionary -/

theorem halloc_fst (h : Heap) (v : List String) : (halloc h v).1 = h.length :=
  rfl

theorem halloc_snd (h : Heap) (v : List String) : (halloc h v).2 = h ++ [v] :=
  rfl

theorem hread_append (h : Heap) (v : List String) (a : ℕ)
    (ha : a < h.length) : hread (h ++ [v]) a = hread h a := by
  simp only [hread, List.getD, List.get?_eq_getElem?]
  rw [List.getElem?_append_left ha]

theorem hread_hwrite_ne (h : Heap) (r : ℕ) (v : List String) (a : ℕ)
    (hne : r ≠ a) : hread (hwrite h r v) a = hread h a := by
  simp only [hread, hwrite, List.getD, List.get?_eq_getElem?]
  rw [List.getElem?_set_ne hne]

theorem HExt_refl (h : Heap) : HExt h h := ⟨le_refl _, fun _ _ => rfl⟩

theorem HExt_trans (h h1 h2 : Heap) (H1 : HExt h h1) (H2 : HExt h1 h2) :
    HExt h h2 := by
  refine ⟨le_trans H1.1 H2.1, fun a ha => ?_⟩
  rw [H2.2 a (lt_of_lt_of_le ha H1.1), H1.2 a ha]

theorem HExt_halloc (h h1 : Heap) (v : List String) (H : HExt h h1) :
    HExt h (halloc h1 v).2 := by
  refine ⟨?_, fun a ha => ?_⟩
  · rw [halloc_snd]
    have := H.1
    simp only [List.length_append, List.length_cons, List.length_nil]
    omega
  · rw [halloc_snd, hread_append h1 v a (lt_of_lt_of_le ha H.1), H.2 a ha]

theorem HExt_hwrite (h h1 : Heap) (r : ℕ) (v : List String) (H : HExt h h1)
    (hr : h.length ≤ r) : HExt h (hwrite h1 r v) := by
  refine ⟨?_, fun a ha => ?_⟩
  · simpa [hwrite] using H.1
  · rw [hread_hwrite_ne h1 r v a (by omega), H.2 a ha]

theorem HExt_foldl {α : Type} (h0 : Heap) (f : Heap → α → Heap)
    (l : List α) (h : Heap) (H : HExt h0 h)
    (step : ∀ hh x, HExt h0 hh → HExt h0 (f hh x)) :
    HExt h0 (l.foldl f h) := by
  induction l generalizing h with
  | nil => exact H
  | cons x rest ih => exact ih (f h x) (step h x H)

theorem sampleLoopH_length (pick : List String → String) :
    ∀ (k : ℕ) (h : Heap) (pr cr : ℕ),
      (sampleLoopH pick k h pr cr).length = h.length := by
  intro k
  induction k with
  | zero => intro h pr cr; rfl
  | succ n ih =>
    intro h pr cr
    simp only [sampleLoopH]
    rw [ih]
    simp [hwrite]

theorem sampleLoopH_frame (pick : List String → String) :
    ∀ (k : ℕ) (h : Heap) (pr cr a : ℕ), a ≠ pr → a ≠ cr →
      hread (sampleLoopH pick k h pr cr) a = hread h a := by
  intro k
  induction k with
  | zero => intro h pr cr a _ _; rfl
  | succ n ih =>
    intro h pr cr a hp hc
    simp only [sampleLoopH]
    rw [ih _ _ _ _ hp hc, hread_hwrite_ne _ _ _ _ (Ne.symm hp),
      hread_hwrite_ne _ _ _ _ (Ne.symm hc)]

theorem sampleH_fst_ge (pick : List String → String) (h : Heap) (r k : ℕ) :
    h.length ≤ (sampleH pick h r k).1 := by
  simp only [sampleH]
  split
  · simp [halloc_fst]
  · simp [halloc_fst, halloc_snd]

theorem sampleH_HExt (pick : List String → String) (h : Heap) (r k : ℕ) :
    HExt h (sampleH pick h r k).2 := by
  simp only [sampleH]
  split
  · exact HExt_halloc h h _ (HExt_refl h)
  · refine ⟨?_, fun a ha => ?_⟩
    · rw [sampleLoopH_length]
      simp [halloc_snd]
    · rw [sampleLoopH_frame pick k _ _ _ a
        (by simp [halloc_fst]; omega) (by simp [halloc_fst, halloc_snd]; omega)]
      rw [halloc_snd, halloc_snd,
        hread_append _ _ a (by simp; omega), hread_append _ _ a ha]

theorem dedupAppendH_HExt (cmdRef : ℕ) (vs : List String) (h0 h : Heap)
    (H : HExt h0 h) (hr : h0.length ≤ cmdRef) :
    HExt h0 (dedupAppendH cmdRef vs h) := by
  unfold dedupAppendH
  refine HExt_foldl h0 _ vs h H ?_
  intro hh v Hh
  split
  · exact Hh
  · exact HExt_hwrite h0 hh cmdRef _ Hh hr

theorem sectionFillH_HExt (pick : List String → String) (cmdRef : ℕ)
    (sections : SectionRefs) (extraRef : ℕ) (fractal : Bool)
    (sectionName : String) (remaining : ℤ) (h0 h : Heap)
    (H : HExt h0 h) (hr : h0.length ≤ cmdRef) :
    HExt h0 (sectionFillH pick cmdRef sections extraRef fractal sectionName
      remaining h) := by
  unfold sectionFillH
  split
  · dsimp only
    split
    · exact HExt_halloc h0 h _ H
    · refine HExt_hwrite h0 _ cmdRef _ ?_ hr
      exact HExt_trans h0 _ _ (HExt_halloc h0 h _ H) (sampleH_HExt pick _ _ _)
  · exact H

theorem globalFillScriptH_HExt (usample : List String → ℕ → List String)
    (cmdRef allRef extraRef : ℕ) (sections : SectionRefs) (fractal : Bool)
    (sectionName : String) (globalCount : ℤ) (h0 h : Heap)
    (H : HExt h0 h) (hr : h0.length ≤ cmdRef) :
    HExt h0 (globalFillScriptH usample cmdRef allRef extraRef sections
      fractal sectionName globalCount h) := by
  unfold globalFillScriptH
  split
  · dsimp only
    split
    · exact HExt_halloc h0 h _ H
    · exact HExt_hwrite h0 _ cmdRef _ (HExt_halloc h0 h _ H) hr
  · exact H

theorem globalFillSectionH_HExt (usample : List String → ℕ → List String)
    (cmdRef secRef allRef : ℕ) (globalCount : ℤ) (h0 h : Heap)
    (H : HExt h0 h) (hr : h0.length ≤ cmdRef) :
    HExt h0 (globalFillSectionH usample cmdRef secRef allRef globalCount h) := by
  unfold globalFillSectionH
  split
  · dsimp only
    split
    · exact HExt_halloc h0 h _ H
    · exact HExt_hwrite h0 _ cmdRef _ (HExt_halloc h0 h _ H) hr
  · exact H

theorem extraFillH_HExt (usample : List String → ℕ → List String)
    (cmdRef extraRef : ℕ) (target : ℤ) (h0 h : Heap)
    (H : HExt h0 h) (hr : h0.length ≤ cmdRef) :
    HExt h0 (extraFillH usample cmdRef extraRef target h) := by
  unfold extraFillH
  split
  · dsimp only
    split
    · exact HExt_halloc h0 h _ H
    · exact HExt_hwrite h0 _ cmdRef _ (HExt_halloc h0 h _ H) hr
  · exact H

theorem fallbackH_HExt (usample : List String → ℕ → List String)
    (cmdRef allRef : ℕ) (h0 h : Heap) (H : HExt h0 h) :
    HExt h0 (fallbackH usample cmdRef allRef h).2 := by
  unfold fallbackH
  split
  · exact HExt_halloc h0 h _ H
  · exact H

theorem genScriptH_HExt (R : RealOracles) (pick : List String → String)
    (usample : List String → ℕ → List String) (fractal : Bool) (h : Heap)
    (sections : SectionRefs) (allRef extraRef : ℕ) (message : String)
    (mopt : Option Metrics) (count : ℕ) :
    HExt h (genScriptH R pick usample fractal h sections allRef extraRef
      message mopt count).2 := by
  have hr : h.length ≤ (halloc h []).1 := le_of_eq (halloc_fst h []).symm
  exact fallbackH_HExt _ _ _ h _
    (extraFillH_HExt _ _ _ _ h _
      (globalFillScriptH_HExt _ _ _ _ _ _ _ _ h _
        (sectionFillH_HExt _ _ _ _ _ _ _ h _
          (dedupAppendH_HExt _ _ h _ (HExt_halloc h h [] (HExt_refl h)) hr)
          hr)
        hr)
      hr)

theorem genFromSectionH_HExt (R : RealOracles) (pick : List String → String)
    (usample : List String → ℕ → List String) (pyHash : String → ℤ)
    (fractal : Bool) (h : Heap) (sections : SectionRefs)
    (allRef extraRef : ℕ) (sec : String) (count : ℕ) :
    HExt h (genFromSectionH R pick usample pyHash fractal h sections allRef
      extraRef sec count).2 := by
  unfold genFromSectionH
  split
  · exact HExt_refl h
  · dsimp only
    refine extraFillH_HExt _ _ _ _ h _ ?_ (sampleH_fst_ge pick h _ _)
    exact globalFillSectionH_HExt _ _ _ _ _ h _ (sampleH_HExt pick h _ _)
      (sampleH_fst_ge pick h _ _)

/-- C10.  The sampler never mutates the candidate list object it is
handed (it copies first) nor any other pre-existing object, and returns
a freshly allocated list even on the `k ≥ len` early return; and a run
of `generate_script` or `generate_from_section` leaves every
pre-existing list object — in particular every per-section command list
of the dictionary — unchanged on the heap. -/
theorem c10_no_mutation (R : RealOracles) (pick : List String → String)
    (usample : List String → ℕ → List String) (pyHash : String → ℤ)
    (fractal : Bool) (h : Heap) (sections : SectionRefs)
    (allRef extraRef : ℕ) (message sec : String) (mopt : Option Metrics)
    (count : ℕ) (cRef k : ℕ) (hc : cRef < h.length) :
    (hread (sampleH pick h cRef k).2 cRef = hread h cRef ∧
     (∀ a, a < h.length → hread (sampleH pick h cRef k).2 a = hread h a) ∧
     h.length ≤ (sampleH pick h cRef k).1) ∧
    (∀ p ∈ sections, p.2 < h.length →
      hread (genScriptH R pick usample fractal h sections allRef extraRef
        message mopt count).2 p.2 = hread h p.2) ∧
    (∀ p ∈ sections, p.2 < h.length →
      hread (genFromSectionH R pick usample pyHash fractal h sections allRef
        extraRef sec count).2 p.2 = hread h p.2) := by
  refine ⟨⟨?_, ?_, sampleH_fst_ge pick h cRef k⟩, ?_, ?_⟩
  · exact (sampleH_HExt pick h cRef k).2 cRef hc
  · exact fun a ha => (sampleH_HExt pick h cRef k).2 a ha
  · intro p _ hp
    exact (genScriptH_HExt R pick usample fractal h sections allRef extraRef
      message mopt count).2 p.2 hp
  · intro p _ hp
    exact (genFromSectionH_HExt R pick usample pyHash fractal h sections
      allRef extraRef sec count).2 p.2 hp

/-- Witness for C10 on a one-object heap holding a two-command section
list. -/
theorem c10_no_mutation_witness :
    (0 < ([["cmd_a()", "cmd_b()"]] : Heap).length) ∧
    hread (sampleH demoPick [["cmd_a()", "cmd_b()"]] 0 1).2 0
      = hread [["cmd_a()", "cmd_b()"]] 0 ∧
    (∀ p ∈ ([("alpha", 0)] : SectionRefs), p.2 < ([["cmd_a()", "cmd_b()"]] : Heap).length →
      hread (genScriptH demoR demoPick demoUsample false
        [["cmd_a()", "cmd_b()"]] [("alpha", 0)] 0 0 "" (some demoMet) 0).2 p.2
        = hread [["cmd_a()", "cmd_b()"]] p.2) := by
  have hc : (0 : ℕ) < ([["cmd_a()", "cmd_b()"]] : Heap).length := by decide
  have H := c10_no_mutation demoR demoPick demoUsample (fun _ => 0) false
    [["cmd_a()", "cmd_b()"]] [("alpha", 0)] 0 0 "" "alpha" (some demoMet)
    0 0 1 hc
  exact ⟨hc, H.1.1, H.2.1⟩

end Tripd
